import Mathlib

/-
  Verification of the canvas-resolution and scroll-offset logic of the
  DevExtreme repository fragment.

  Part 1 embeds the canvas resolver of the visualization base widget
  (`setCanvas`).  Its implementation file is not part of the fragment; only
  its unit tests (src/js/renovation/viz/core/__tests__/base_widget.test.tsx)
  are.  The resolver is therefore modelled from the specification (spec.md
  section 4.1) and cross-checked below against every concrete input/output
  pair those unit tests pin down.

  Part 2 embeds the scrollable widget
  (src/js/renovation/ui/scroll_view/_toDelete/ui.scrollable.js), whose
  source is part of the fragment and is translated directly.

  All JavaScript numbers involved are integral in the modelled domain, so
  they are embedded as Int.  A JavaScript value that may be `undefined` is
  embedded as an Option.
-/

namespace DevExtreme

/-! ## Part 1: canvas resolver (spec-modelled) -/

/-- Modelled from the spec: the resolved drawing rectangle
`{width, height, left, right, top, bottom}` (spec section 3, "Canvas"). -/
structure Canvas where
  width : Int
  height : Int
  left : Int
  right : Int
  top : Int
  bottom : Int
deriving DecidableEq

/-- Modelled from the spec: the all-zero canvas, used when no `defaultCanvas`
is supplied (spec section 4.1, failure semantics). -/
def zeroCanvas : Canvas := ⟨0, 0, 0, 0, 0, 0⟩

/-- Modelled from the spec: the user-supplied target size
`{width?, height?}`; either field may be absent or negative
(spec section 3, "Size"). -/
structure Size where
  width : Option Int
  height : Option Int
deriving DecidableEq

/-- Modelled from the spec: the margin `{left?, top?, right?, bottom?}`
(spec section 3, "Margin"). -/
structure Margin where
  left : Option Int
  top : Option Int
  right : Option Int
  bottom : Option Int
deriving DecidableEq

/-- Modelled from the spec: the measured computed style of the container
element — outer size and the padding on both sides of each axis
(spec section 4.1 step 1(b) and the unit test mocking
`getElementComputedStyle`). -/
structure ContainerStyle where
  width : Int
  paddingLeft : Int
  paddingRight : Int
  height : Int
  paddingTop : Int
  paddingBottom : Int
deriving DecidableEq

/-- Modelled from the spec: the container's measured content-box width,
"outer size minus padding on both sides of that axis" (spec section 4.1
step 1(b)). -/
def contentBoxWidth (st : ContainerStyle) : Int :=
  st.width - st.paddingLeft - st.paddingRight

/-- Modelled from the spec: the container's measured content-box height. -/
def contentBoxHeight (st : ContainerStyle) : Int :=
  st.height - st.paddingTop - st.paddingBottom

/-- Modelled from the spec: the per-axis candidate dimension
(spec section 4.1 step 1).  A present explicit size field is the candidate
as supplied; when negative it is caught by the whole-canvas validity check
of step 2, whose parenthetical names "explicit size supplied a negative
value" as a trigger of the verbatim `defaultCanvas` fallback (also pinned
by the unit test at base_widget.test.tsx:282-298, which expects
`defaultCanvas` verbatim for a negative size).  An absent explicit field
falls back to the measured content-box dimension when that is positive,
and otherwise to the default dimension. -/
def resolveAxis (explicit : Option Int) (measured : Option Int) (dflt : Int) : Int :=
  match explicit with
  | some v => v
  | none =>
    match measured with
    | some m => if 0 < m then m else dflt
    | none => dflt

/-- Modelled from the spec: the full candidate canvas before the validity
check — per-axis candidate dimensions (step 1) merged with the insets,
each being the explicit margin value if present and otherwise the
corresponding `defaultCanvas` inset (step 3). -/
def candidateCanvas (sz : Size) (st : Option ContainerStyle) (mg : Margin)
    (d : Canvas) : Canvas :=
  { width := resolveAxis sz.width (st.map contentBoxWidth) d.width
    height := resolveAxis sz.height (st.map contentBoxHeight) d.height
    left := mg.left.getD d.left
    right := mg.right.getD d.right
    top := mg.top.getD d.top
    bottom := mg.bottom.getD d.bottom }

/-- Modelled from the spec: the validity check on the full candidate set
(spec section 4.1 steps 2 and 4).  A candidate is invalid when a resolved
dimension is negative, or when the insets of an axis leave no positive
available space on that axis.  The unit test at
base_widget.test.tsx:300-329 pins the inset threshold as "no positive
space left" (it expects the fallback already when the inset sum equals
the dimension exactly: width 600 with left 200 + right 400). -/
def canvasInvalid (c : Canvas) : Prop :=
  c.width < 0 ∨ c.height < 0 ∨
    c.width - (c.left + c.right) ≤ 0 ∨ c.height - (c.top + c.bottom) ≤ 0

instance (c : Canvas) : Decidable (canvasInvalid c) := by
  unfold canvasInvalid
  exact inferInstance

/-- Modelled from the spec: `setCanvas` / `resolve(size, containerMeasuredSize,
margin, defaultCanvas) -> Canvas` (spec section 4.1).  The candidate canvas
is returned when valid; otherwise the entire `defaultCanvas` (the all-zero
canvas when none is supplied) is returned verbatim, margin ignored. -/
def setCanvas (sz : Size) (st : Option ContainerStyle) (mg : Margin)
    (dflt : Option Canvas) : Canvas :=
  let d := dflt.getD zeroCanvas
  let c := candidateCanvas sz st mg d
  if canvasInvalid c then d else c

/-- No margin supplied. -/
def noMargin : Margin := ⟨none, none, none, none⟩

-- The eight `setCanvas` unit tests of base_widget.test.tsx, replayed on the
-- spec-modelled resolver (lines 167, 174, 184, 202, 232, 253, 282, 300).
example : setCanvas ⟨none, none⟩ none noMargin none = zeroCanvas := by decide
example : setCanvas ⟨some 600, some 400⟩ none noMargin none
    = ⟨600, 400, 0, 0, 0, 0⟩ := by decide
example : setCanvas ⟨none, none⟩ (some ⟨400, 10, 10, 300, 10, 10⟩) noMargin none
    = ⟨380, 280, 0, 0, 0, 0⟩ := by decide
example : setCanvas ⟨none, none⟩ (some ⟨0, 0, 0, 0, 0, 0⟩) noMargin
    (some ⟨500, 300, 10, 20, 30, 40⟩) = ⟨500, 300, 10, 20, 30, 40⟩ := by decide
example : setCanvas ⟨some 600, none⟩ (some ⟨400, 0, 0, 300, 0, 0⟩) noMargin none
    = ⟨600, 300, 0, 0, 0, 0⟩ := by decide
example : setCanvas ⟨some 600, none⟩ (some ⟨400, 0, 0, 300, 0, 0⟩)
    ⟨some 20, some 40, none, none⟩ (some ⟨500, 300, 10, 20, 30, 40⟩)
    = ⟨600, 300, 20, 20, 40, 40⟩ := by decide
example : setCanvas ⟨some (-600), some (-400)⟩ (some ⟨400, 0, 0, 300, 0, 0⟩)
    noMargin (some ⟨500, 300, 0, 0, 0, 0⟩) = ⟨500, 300, 0, 0, 0, 0⟩ := by decide
example : setCanvas ⟨some 600, some 400⟩ none ⟨some 200, some 300, some 400, some 100⟩
    (some ⟨500, 300, 10, 20, 30, 40⟩) = ⟨500, 300, 10, 20, 30, 40⟩ := by decide

/-! ## Part 2: scrollable widget (ui.scrollable.js) -/

/-- The `direction` option of the scrollable: `horizontal`, `vertical` or
`both` (ui.scrollable.js lines 18-19 and spec section 3). -/
inductive Direction
  | horizontal
  | vertical
  | both
deriving DecidableEq

/-- The object form of a scroll location argument: `{left?|x?, top?|y?}`
(ui.scrollable.js `_normalizeLocation`, lines 230-245). -/
structure LocationObj where
  left : Option Int
  x : Option Int
  top : Option Int
  y : Option Int
deriving DecidableEq

/-- A scroll location argument: either a scalar distance or an object
(ui.scrollable.js `_normalizeLocation`). -/
inductive ScrollArg
  | scalar (v : Int)
  | obj (o : LocationObj)
deriving DecidableEq

/-- `ensureDefined(value, defaultValue)` from core/utils/common: the first
argument unless it is `undefined`, otherwise the second. -/
def ensureDefined (a b : Option Int) : Option Int :=
  match a with
  | some v => some v
  | none => b

/-- The `{left, top}` pair produced by `_normalizeLocation`; an `undefined`
field means "leave this axis unchanged". -/
structure NormalizedOffset where
  left : Option Int
  top : Option Int
deriving DecidableEq

/-- `_normalizeLocation` (ui.scrollable.js lines 230-245).  For a plain
object, `left` prefers `location.left` over `location.x` and `top` prefers
`location.top` over `location.y`, each negated when defined; otherwise the
scalar is negated onto `left` unless the direction is vertical and onto
`top` unless the direction is horizontal. -/
def normalizeLocation (direction : Direction) (location : ScrollArg) : NormalizedOffset :=
  match location with
  | .obj o =>
    let l := ensureDefined o.left o.x
    let t := ensureDefined o.top o.y
    { left := l.map (fun v => -v), top := t.map (fun v => -v) }
  | .scalar v =>
    { left := if direction ≠ Direction.vertical then some (-v) else none
      top := if direction ≠ Direction.horizontal then some (-v) else none }

/-- JavaScript falsiness of a `number | undefined` field, as used by the
`!distance.top && !distance.left` guards in `scrollBy` and `scrollTo`
(ui.scrollable.js lines 296 and 322): `undefined` and `0` are falsy. -/
def offsetFalsy : Option Int → Bool
  | none => true
  | some v => v == 0

/-- `scrollBy(distance)` (ui.scrollable.js lines 293-303), reduced to its
scroll-strategy effect: the normalized distance handed to
`strategy.scrollBy`, or `none` when the falsy guard returns early and the
strategy is not invoked.  The DOM bookkeeping around the call
(`_updateIfNeed`, `_updateRtlConfig`) is outside this value. -/
def scrollBy (direction : Direction) (distance : ScrollArg) : Option NormalizedOffset :=
  let d := normalizeLocation direction distance
  if offsetFalsy d.top && offsetFalsy d.left then none else some d

/-- The current location reported by the scroll strategy
(`this._location()`, ui.scrollable.js line 310): both fields are numbers. -/
structure StrategyLocation where
  left : Int
  top : Int
deriving DecidableEq

/-- Pointwise application of the strategy's scale-correction to a
normalized offset, as `this._strategy._applyScaleRatio(targetLocation)`
does on the non-native path (ui.scrollable.js line 313).  The strategy
itself is an external collaborator, so the correction is abstracted as a
function on coordinates. -/
def scaleOffset (scale : Int → Int) (o : NormalizedOffset) : NormalizedOffset :=
  { left := o.left.map scale, top := o.top.map scale }

/-- The target location after the optional scale correction of
ui.scrollable.js line 313 (applied only when `useNative` is false). -/
def scaledTarget (useNative : Bool) (scale : Int → Int) (t : NormalizedOffset) : NormalizedOffset :=
  if useNative then t else scaleOffset scale t

/-- The current location after the optional scale correction of
ui.scrollable.js line 314 (applied only when `useNative` is false). -/
def scaledLocation (useNative : Bool) (scale : Int → Int) (loc : StrategyLocation) : StrategyLocation :=
  if useNative then loc else ⟨scale loc.left, scale loc.top⟩

/-- `scrollTo(targetLocation)` (ui.scrollable.js lines 305-328), reduced to
its scroll-strategy effect: the distance handed to `strategy.scrollBy`, or
`none` when the falsy guard returns early.  The distance is
`_normalizeLocation` applied to the per-field difference
`location.field - ensureDefined(targetLocation.field, location.field)`. -/
def scrollTo (direction : Direction) (useNative : Bool) (scale : Int → Int)
    (location : StrategyLocation) (target : ScrollArg) : Option NormalizedOffset :=
  let t := scaledTarget useNative scale (normalizeLocation direction target)
  let loc := scaledLocation useNative scale location
  let distance := normalizeLocation direction (.obj
    { left := some (loc.left - (ensureDefined t.left (some loc.left)).getD loc.left)
      x := none
      top := some (loc.top - (ensureDefined t.top (some loc.top)).getD loc.top)
      y := none })
  if offsetFalsy distance.top && offsetFalsy distance.left then none else some distance

/-- The DOM geometry of the container element read by the scrollable
(ui.scrollable.js lines 121 and 135). -/
structure ContainerDims where
  scrollWidth : Int
  clientWidth : Int
  scrollLeft : Int
  scrollHeight : Int
  clientHeight : Int
deriving DecidableEq

/-- The `left` component of `_getMaxOffset` (ui.scrollable.js lines
120-127): `scrollWidth - clientWidth`. -/
def getMaxOffsetLeft (c : ContainerDims) : Int := c.scrollWidth - c.clientWidth

/-- `_isHorizontalAndRtlEnabled` (ui.scrollable.js lines 94-96). -/
def isHorizontalAndRtlEnabled (rtlEnabled : Bool) (direction : Direction) : Bool :=
  rtlEnabled && decide (direction ≠ Direction.vertical)

/-- The `_rtlConfig` state of the scrollable (ui.scrollable.js lines
86-90 and 111-113).  The source field `windowPixelRatio` is embedded as
`pixelDensity`. -/
structure RtlConfig where
  scrollRight : Int
  clientWidth : Int
  pixelDensity : Int
  skipUpdating : Bool
deriving DecidableEq

/-- `_updateRtlPosition` (ui.scrollable.js lines 98-118), reduced to the
horizontal position it settles on: `some (scrollLeft, newConfig)` when the
RTL-horizontal branch runs (the widget then issues `scrollTo({left})`
towards that `scrollLeft` if it differs from the current one), `none`
when the branch is skipped. -/
def updateRtlPosition (rtlEnabled : Bool) (direction : Direction)
    (c : ContainerDims) (cfg : RtlConfig) : Option (Int × RtlConfig) :=
  if isHorizontalAndRtlEnabled rtlEnabled direction then
    let sl := getMaxOffsetLeft c - cfg.scrollRight
    if sl ≤ 0 then some (0, { cfg with scrollRight := getMaxOffsetLeft c })
    else some (sl, cfg)
  else none

/-- `_updateRtlConfig` (ui.scrollable.js lines 133-143), run after each
`scrollBy`/`scrollTo`.  `density` is the current
`_getWindowDevicePixelRatio()` reading. -/
def updateRtlConfig (rtlEnabled : Bool) (direction : Direction)
    (c : ContainerDims) (density : Int) (cfg : RtlConfig) : RtlConfig :=
  if isHorizontalAndRtlEnabled rtlEnabled direction && !cfg.skipUpdating then
    let cfg1 :=
      if cfg.pixelDensity = density ∧ cfg.clientWidth = c.clientWidth then
        { cfg with scrollRight := getMaxOffsetLeft c - c.scrollLeft }
      else cfg
    { cfg1 with clientWidth := c.clientWidth, pixelDensity := density }
  else cfg

/-- The scrolling axis a scroll-offset property name stands for. -/
inductive Axis
  | left
  | top
deriving DecidableEq

/-- `_getInactiveProp` (ui.scrollable.js lines 216-224): the offset
property of the axis that the current direction leaves inactive
(`undefined` for direction `both`). -/
def getInactiveProp : Direction → Option Axis
  | .vertical => some Axis.left
  | .horizontal => some Axis.top
  | .both => none

/-- `_resetInactiveDirection` (ui.scrollable.js lines 205-214), dispatched
by `_optionChanged` on a `direction` change (lines 172-175): the corrective
`scrollTo` argument it issues from the current scroll offset, or `none`
when there is no inactive axis or no window. -/
def resetInactiveDirection (hasWin : Bool) (direction : Direction)
    (offset : StrategyLocation) : Option StrategyLocation :=
  match getInactiveProp direction with
  | none => none
  | some ax =>
    if !hasWin then none
    else
      some (match ax with
        | .left => { offset with left := 0 }
        | .top => { offset with top := 0 })

/-- The lock-related state of the scrollable: the `_locked` flag
(ui.scrollable.js line 38) and the `disabled` option. -/
structure LockState where
  locked : Bool
  disabled : Bool
deriving DecidableEq

/-- `_lock` (ui.scrollable.js lines 251-253). -/
def lock (s : LockState) : LockState := { s with locked := true }

/-- `_unlock` (ui.scrollable.js lines 255-259): clears the flag only when
the widget is not disabled. -/
def unlock (s : LockState) : LockState :=
  if s.disabled then s else { s with locked := false }

/-- `_isLocked` (ui.scrollable.js lines 247-249). -/
def isLocked (s : LockState) : Bool := s.locked

/-- `_renderDisabledState` (ui.scrollable.js lines 145-151). -/
def renderDisabledState (s : LockState) : LockState :=
  if s.disabled then lock s else unlock s

/-- The operations that touch the `_locked` flag while the `disabled`
option keeps its value: `_lock`, `_unlock`, and `_renderDisabledState`
(the latter is also what `_optionChanged` dispatches for `disabled`,
ui.scrollable.js lines 190-193). -/
inductive LockOp
  | lockOp
  | unlockOp
  | renderOp
deriving DecidableEq

/-- Executing one lock-related operation on the state. -/
def applyLockOp (s : LockState) : LockOp → LockState
  | .lockOp => lock s
  | .unlockOp => unlock s
  | .renderOp => renderDisabledState s

/-! ## Helper lemmas -/

theorem candidateCanvas_width_explicit (sz : Size) (st : Option ContainerStyle)
    (mg : Margin) (d : Canvas) (w : Int) (h : sz.width = some w) :
    (candidateCanvas sz st mg d).width = w := by
  simp [candidateCanvas, resolveAxis, h]

theorem candidateCanvas_height_explicit (sz : Size) (st : Option ContainerStyle)
    (mg : Margin) (d : Canvas) (hv : Int) (h : sz.height = some hv) :
    (candidateCanvas sz st mg d).height = hv := by
  simp [candidateCanvas, resolveAxis, h]

theorem setCanvas_of_invalid (sz : Size) (st : Option ContainerStyle) (mg : Margin)
    (dflt : Option Canvas)
    (h : canvasInvalid (candidateCanvas sz st mg (dflt.getD zeroCanvas))) :
    setCanvas sz st mg dflt = dflt.getD zeroCanvas := by
  simp [setCanvas, h]

theorem setCanvas_of_valid (sz : Size) (st : Option ContainerStyle) (mg : Margin)
    (dflt : Option Canvas)
    (h : ¬ canvasInvalid (candidateCanvas sz st mg (dflt.getD zeroCanvas))) :
    setCanvas sz st mg dflt = candidateCanvas sz st mg (dflt.getD zeroCanvas) := by
  simp [setCanvas, h]

/-! ## Claim theorems: canvas resolver -/

/-- The per-axis container-or-default fallback of claim C1, as the claim
words it: the container's measured content-box dimension if positive,
otherwise the default dimension.  Stated from the claim's words, for
comparison with the spec-modelled resolver. -/
def claimAxisFallback (measured : Option Int) (dflt : Int) : Int :=
  match measured with
  | some m => if 0 < m then m else dflt
  | none => dflt

/-- The per-axis dimension exactly as claim C1's precedence words it: the
explicit size field if present and non-negative; otherwise the container's
measured content-box dimension if positive; otherwise the default
dimension. -/
def claimAxisDimension (explicit : Option Int) (measured : Option Int) (dflt : Int) : Int :=
  match explicit with
  | some v => if 0 ≤ v then v else claimAxisFallback measured dflt
  | none => claimAxisFallback measured dflt

/-- C1 counterexample: a present but negative explicit width does not fall
through to the positive container measurement (400), as the claimed
precedence would have it; the whole canvas falls back to `defaultCanvas`
instead, so the resolved width is 500. -/
theorem canvas_axis_precedence_counterexample :
    (setCanvas ⟨some (-600), some 400⟩ (some ⟨420, 10, 10, 320, 10, 10⟩) noMargin
        (some ⟨500, 300, 10, 20, 30, 40⟩)).width ≠
      claimAxisDimension (some (-600))
        ((some (⟨420, 10, 10, 320, 10, 10⟩ : ContainerStyle)).map contentBoxWidth) 500 := by
  decide

/-- C1 (amended): each candidate dimension is the explicit size field
whenever that field is present; when it is absent, the container's measured
content-box dimension if positive, otherwise the `defaultCanvas` dimension.
The final canvas equals this candidate whenever the candidate passes the
whole-canvas validity check; a present negative size field invalidates the
whole canvas instead of falling through to the container.  In particular,
an explicit width combined with a missing explicit height yields the
explicit width and the container-measured height. -/
theorem canvas_axis_precedence_amended :
    (∀ (sz : Size) (st : Option ContainerStyle) (mg : Margin) (d : Canvas) (w : Int),
        sz.width = some w → (candidateCanvas sz st mg d).width = w)
  ∧ (∀ (sz : Size) (st : Option ContainerStyle) (mg : Margin) (d : Canvas) (hv : Int),
        sz.height = some hv → (candidateCanvas sz st mg d).height = hv)
  ∧ (∀ (sz : Size) (s : ContainerStyle) (mg : Margin) (d : Canvas),
        sz.width = none → 0 < contentBoxWidth s →
        (candidateCanvas sz (some s) mg d).width = contentBoxWidth s)
  ∧ (∀ (sz : Size) (s : ContainerStyle) (mg : Margin) (d : Canvas),
        sz.height = none → 0 < contentBoxHeight s →
        (candidateCanvas sz (some s) mg d).height = contentBoxHeight s)
  ∧ (∀ (sz : Size) (s : ContainerStyle) (mg : Margin) (d : Canvas),
        sz.width = none → contentBoxWidth s ≤ 0 →
        (candidateCanvas sz (some s) mg d).width = d.width)
  ∧ (∀ (sz : Size) (s : ContainerStyle) (mg : Margin) (d : Canvas),
        sz.height = none → contentBoxHeight s ≤ 0 →
        (candidateCanvas sz (some s) mg d).height = d.height)
  ∧ (∀ (sz : Size) (mg : Margin) (d : Canvas),
        sz.width = none → (candidateCanvas sz none mg d).width = d.width)
  ∧ (∀ (sz : Size) (mg : Margin) (d : Canvas),
        sz.height = none → (candidateCanvas sz none mg d).height = d.height)
  ∧ (∀ (sz : Size) (st : Option ContainerStyle) (mg : Margin) (dflt : Option Canvas),
        ¬ canvasInvalid (candidateCanvas sz st mg (dflt.getD zeroCanvas)) →
        setCanvas sz st mg dflt = candidateCanvas sz st mg (dflt.getD zeroCanvas)) := by
  refine ⟨candidateCanvas_width_explicit, candidateCanvas_height_explicit,
    ?_, ?_, ?_, ?_, ?_, ?_, setCanvas_of_valid⟩
  · intro sz s mg d h hp
    simp [candidateCanvas, resolveAxis, h, hp]
  · intro sz s mg d h hp
    simp [candidateCanvas, resolveAxis, h, hp]
  · intro sz s mg d h hp
    simp [candidateCanvas, resolveAxis, h, Int.not_lt.mpr hp]
  · intro sz s mg d h hp
    simp [candidateCanvas, resolveAxis, h, Int.not_lt.mpr hp]
  · intro sz mg d h
    simp [candidateCanvas, resolveAxis, h]
  · intro sz mg d h
    simp [candidateCanvas, resolveAxis, h]

/-- C1 witness: an explicit width of 600 combined with a missing explicit
height and a 400x300 content-box container measurement yields candidate
width 600 and candidate height 300, and the valid candidate is returned
unchanged. -/
theorem canvas_axis_precedence_witness :
    (candidateCanvas ⟨some 600, none⟩ (some ⟨400, 0, 0, 300, 0, 0⟩) noMargin zeroCanvas).width = 600
  ∧ (candidateCanvas ⟨some 600, none⟩ (some ⟨400, 0, 0, 300, 0, 0⟩) noMargin zeroCanvas).height
      = contentBoxHeight ⟨400, 0, 0, 300, 0, 0⟩
  ∧ setCanvas ⟨some 600, none⟩ (some ⟨400, 0, 0, 300, 0, 0⟩) noMargin none
      = candidateCanvas ⟨some 600, none⟩ (some ⟨400, 0, 0, 300, 0, 0⟩) noMargin
          ((none : Option Canvas).getD zeroCanvas) :=
  ⟨canvas_axis_precedence_amended.1 _ _ _ _ 600 rfl,
   canvas_axis_precedence_amended.2.2.2.1 ⟨some 600, none⟩ ⟨400, 0, 0, 300, 0, 0⟩
     noMargin zeroCanvas rfl (by decide),
   canvas_axis_precedence_amended.2.2.2.2.2.2.2.2 ⟨some 600, none⟩
     (some ⟨400, 0, 0, 300, 0, 0⟩) noMargin none (by decide)⟩

/-- C2: whenever the supplied size has a negative width or height field,
`setCanvas` returns the whole `defaultCanvas` verbatim — dimensions and all
four insets — ignoring any supplied margin and container measurement. -/
theorem canvas_negative_size_default_verbatim
    (sz : Size) (st : Option ContainerStyle) (mg : Margin) (d : Canvas)
    (h : (∃ w, sz.width = some w ∧ w < 0) ∨ (∃ hv, sz.height = some hv ∧ hv < 0)) :
    setCanvas sz st mg (some d) = d := by
  have hinv : canvasInvalid (candidateCanvas sz st mg d) := by
    rcases h with ⟨w, hw, hneg⟩ | ⟨hv, hh, hneg⟩
    · exact Or.inl (by rw [candidateCanvas_width_explicit sz st mg d w hw]; exact hneg)
    · exact Or.inr (Or.inl
        (by rw [candidateCanvas_height_explicit sz st mg d hv hh]; exact hneg))
  simpa using setCanvas_of_invalid sz st mg (some d) hinv

/-- C2 witness: the unit-test input of base_widget.test.tsx:282-298 — a
negative size with a positive container measurement and a supplied margin —
resolves to `defaultCanvas` verbatim. -/
theorem canvas_negative_size_default_verbatim_witness :
    setCanvas ⟨some (-600), some (-400)⟩ (some ⟨400, 0, 0, 300, 0, 0⟩)
      ⟨some 20, some 40, none, none⟩ (some ⟨500, 300, 10, 20, 30, 40⟩)
      = ⟨500, 300, 10, 20, 30, 40⟩ :=
  canvas_negative_size_default_verbatim _ _ _ _ (Or.inl ⟨-600, rfl, by decide⟩)

/-- C3: whenever the resolved insets of some axis (margin field if present,
else the default inset) sum to more than the resolved dimension of that
axis, `setCanvas` returns the entire `defaultCanvas` (the all-zero canvas
when none is supplied) instead of clamping the available space. -/
theorem canvas_margin_exceeds_default_verbatim
    (sz : Size) (st : Option ContainerStyle) (mg : Margin) (dflt : Option Canvas)
    (h : (candidateCanvas sz st mg (dflt.getD zeroCanvas)).width <
           (candidateCanvas sz st mg (dflt.getD zeroCanvas)).left +
             (candidateCanvas sz st mg (dflt.getD zeroCanvas)).right
       ∨ (candidateCanvas sz st mg (dflt.getD zeroCanvas)).height <
           (candidateCanvas sz st mg (dflt.getD zeroCanvas)).top +
             (candidateCanvas sz st mg (dflt.getD zeroCanvas)).bottom) :
    setCanvas sz st mg dflt = dflt.getD zeroCanvas := by
  apply setCanvas_of_invalid
  rcases h with h | h
  · exact Or.inr (Or.inr (Or.inl (by omega)))
  · exact Or.inr (Or.inr (Or.inr (by omega)))

/-- C3 witness: the spec's example — margin `{top:300, bottom:100}` whose
sum 400 exceeds the resolved height 300 — returns the default canvas
verbatim. -/
theorem canvas_margin_exceeds_default_verbatim_witness :
    setCanvas ⟨none, none⟩ none ⟨none, some 300, none, some 100⟩
      (some ⟨500, 300, 10, 20, 30, 40⟩) = ⟨500, 300, 10, 20, 30, 40⟩ := by
  have := canvas_margin_exceeds_default_verbatim ⟨none, none⟩ none
    ⟨none, some 300, none, some 100⟩ (some ⟨500, 300, 10, 20, 30, 40⟩)
    (Or.inr (by decide))
  simpa using this

/-- C8: canvas resolution and scroll-offset normalization are total — every
input yields a defined output — and the resolved canvas never has a
negative width or height: when the supplied `defaultCanvas` has
non-negative dimensions (as the data model requires) so does the output,
and with no `defaultCanvas` at all the worst case is the all-zero
canvas. -/
theorem canvas_total_nonnegative :
    (∀ (sz : Size) (st : Option ContainerStyle) (mg : Margin) (d : Canvas),
        0 ≤ d.width → 0 ≤ d.height →
        0 ≤ (setCanvas sz st mg (some d)).width ∧ 0 ≤ (setCanvas sz st mg (some d)).height)
  ∧ (∀ (sz : Size) (st : Option ContainerStyle) (mg : Margin),
        0 ≤ (setCanvas sz st mg none).width ∧ 0 ≤ (setCanvas sz st mg none).height)
  ∧ (∀ (dir : Direction) (loc : ScrollArg),
        ∃ l t, normalizeLocation dir loc = ⟨l, t⟩) := by
  have key : ∀ (sz : Size) (st : Option ContainerStyle) (mg : Margin) (dflt : Option Canvas),
      0 ≤ (dflt.getD zeroCanvas).width → 0 ≤ (dflt.getD zeroCanvas).height →
      0 ≤ (setCanvas sz st mg dflt).width ∧ 0 ≤ (setCanvas sz st mg dflt).height := by
    intro sz st mg dflt hw hh
    by_cases hinv : canvasInvalid (candidateCanvas sz st mg (dflt.getD zeroCanvas))
    · rw [setCanvas_of_invalid sz st mg dflt hinv]
      exact ⟨hw, hh⟩
    · rw [setCanvas_of_valid sz st mg dflt hinv]
      unfold canvasInvalid at hinv
      push_neg at hinv
      exact ⟨hinv.1, hinv.2.1⟩
  refine ⟨fun sz st mg d hw hh => key sz st mg (some d) (by simpa using hw) (by simpa using hh),
    fun sz st mg => key sz st mg none (by decide) (by decide),
    fun dir loc => ⟨_, _, rfl⟩⟩

/-- C8 witness: a malformed input — negative size, no container, no
default — still yields a defined canvas with non-negative dimensions. -/
theorem canvas_total_nonnegative_witness :
    0 ≤ (setCanvas ⟨some (-9), none⟩ none noMargin none).width
  ∧ 0 ≤ (setCanvas ⟨some (-9), none⟩ none noMargin none).height :=
  canvas_total_nonnegative.2.1 ⟨some (-9), none⟩ none noMargin

/-! ## Claim theorems: scroll-offset normalization and scrollable state -/

/-- C4: `_normalizeLocation` on an object negates `left` preferring `left`
over `x` and negates `top` preferring `top` over `y`, leaving a field
undefined when it is absent in both spellings; on a scalar it negates the
value onto the axis matching the direction (horizontal to `left`,
vertical to `top`) and leaves the other axis undefined. -/
theorem normalize_location_shape :
    (∀ (dir : Direction) (o : LocationObj) (a : Int),
        o.left = some a → (normalizeLocation dir (.obj o)).left = some (-a))
  ∧ (∀ (dir : Direction) (o : LocationObj) (b : Int),
        o.left = none → o.x = some b → (normalizeLocation dir (.obj o)).left = some (-b))
  ∧ (∀ (dir : Direction) (o : LocationObj),
        o.left = none → o.x = none → (normalizeLocation dir (.obj o)).left = none)
  ∧ (∀ (dir : Direction) (o : LocationObj) (a : Int),
        o.top = some a → (normalizeLocation dir (.obj o)).top = some (-a))
  ∧ (∀ (dir : Direction) (o : LocationObj) (b : Int),
        o.top = none → o.y = some b → (normalizeLocation dir (.obj o)).top = some (-b))
  ∧ (∀ (dir : Direction) (o : LocationObj),
        o.top = none → o.y = none → (normalizeLocation dir (.obj o)).top = none)
  ∧ (∀ v : Int, normalizeLocation Direction.horizontal (.scalar v) = ⟨some (-v), none⟩)
  ∧ (∀ v : Int, normalizeLocation Direction.vertical (.scalar v) = ⟨none, some (-v)⟩) := by
  refine ⟨?_, ?_, ?_, ?_, ?_, ?_, fun v => rfl, fun v => rfl⟩
  · intro dir o a h
    simp [normalizeLocation, ensureDefined, h]
  · intro dir o b h h2
    simp [normalizeLocation, ensureDefined, h, h2]
  · intro dir o h h2
    simp [normalizeLocation, ensureDefined, h, h2]
  · intro dir o a h
    simp [normalizeLocation, ensureDefined, h]
  · intro dir o b h h2
    simp [normalizeLocation, ensureDefined, h, h2]
  · intro dir o h h2
    simp [normalizeLocation, ensureDefined, h, h2]

/-- C4 witness: both spellings at once prefer `left`/`top` over `x`/`y`,
and an axis absent in both spellings stays undefined. -/
theorem normalize_location_shape_witness :
    (normalizeLocation Direction.both (.obj ⟨some 3, some 99, none, some 4⟩)).left = some (-3)
  ∧ (normalizeLocation Direction.both (.obj ⟨some 3, some 99, none, some 4⟩)).top = some (-4)
  ∧ (normalizeLocation Direction.both (.obj ⟨none, none, some 4, none⟩)).left = none :=
  ⟨normalize_location_shape.1 _ _ 3 rfl,
   normalize_location_shape.2.2.2.2.1 _ _ 4 rfl rfl,
   normalize_location_shape.2.2.1 _ _ rfl rfl⟩

/-- C5: `scrollTo` computes its distance per field as the (scale-corrected)
current location minus `ensureDefined(target, current)` and re-normalizes
it through `_normalizeLocation`, exactly as `scrollBy` would treat that
difference object; both return without invoking the scroll strategy — the
result is `none` — precisely when the distance has no nonzero `left` and
no nonzero `top` component, so scrolling to the current position is a
no-op. -/
theorem scroll_zero_delta_noop :
    (∀ (dir : Direction) (un : Bool) (scale : Int → Int)
        (loc : StrategyLocation) (tgt : ScrollArg),
        scrollTo dir un scale loc tgt =
          scrollBy dir (.obj
            { left := some ((scaledLocation un scale loc).left -
                (ensureDefined (scaledTarget un scale (normalizeLocation dir tgt)).left
                  (some (scaledLocation un scale loc).left)).getD
                    (scaledLocation un scale loc).left)
              x := none
              top := some ((scaledLocation un scale loc).top -
                (ensureDefined (scaledTarget un scale (normalizeLocation dir tgt)).top
                  (some (scaledLocation un scale loc).top)).getD
                    (scaledLocation un scale loc).top)
              y := none }))
  ∧ (∀ (dir : Direction) (dist : ScrollArg),
        scrollBy dir dist = none ↔
          (offsetFalsy (normalizeLocation dir dist).left = true ∧
            offsetFalsy (normalizeLocation dir dist).top = true))
  ∧ (∀ (dir : Direction) (un : Bool) (scale : Int → Int) (loc : StrategyLocation),
        scrollTo dir un scale loc
          (.obj ⟨some (-loc.left), none, some (-loc.top), none⟩) = none) := by
  refine ⟨fun dir un scale loc tgt => rfl, ?_, ?_⟩
  · intro dir dist
    unfold scrollBy
    constructor
    · intro h
      by_cases ht : offsetFalsy (normalizeLocation dir dist).top = true
      · by_cases hl : offsetFalsy (normalizeLocation dir dist).left = true
        · exact ⟨hl, ht⟩
        · simp [ht, hl] at h
      · simp [ht] at h
    · intro ⟨hl, ht⟩
      simp [hl, ht]
  · intro dir un scale loc
    cases un <;>
      simp [scrollTo, scaledTarget, scaledLocation, scaleOffset,
        normalizeLocation, ensureDefined, offsetFalsy]

/-- C6: in RTL mode with a horizontal-capable direction, the recomputed
left offset is `(scrollWidth - clientWidth) - scrollRight`; whenever that
value is at most 0 it clamps to 0 and `scrollRight` is reset to the
maximum left offset `scrollWidth - clientWidth`, and otherwise that value
is used and the configuration is unchanged. -/
theorem rtl_position_clamp
    (dir : Direction) (c : ContainerDims) (cfg : RtlConfig)
    (hd : dir ≠ Direction.vertical) :
    ((c.scrollWidth - c.clientWidth) - cfg.scrollRight ≤ 0 →
       updateRtlPosition true dir c cfg =
         some (0, { cfg with scrollRight := c.scrollWidth - c.clientWidth }))
  ∧ (0 < (c.scrollWidth - c.clientWidth) - cfg.scrollRight →
       updateRtlPosition true dir c cfg =
         some ((c.scrollWidth - c.clientWidth) - cfg.scrollRight, cfg)) := by
  constructor
  · intro h
    simp [updateRtlPosition, isHorizontalAndRtlEnabled, getMaxOffsetLeft, hd, h]
  · intro h
    have hn : ¬ (c.scrollWidth - c.clientWidth - cfg.scrollRight ≤ 0) := by omega
    simp [updateRtlPosition, isHorizontalAndRtlEnabled, getMaxOffsetLeft, hd, hn]

/-- C6 witness: after a resize that makes `clientWidth` 200 against a
tracked `scrollRight` of 400, the recomputed left offset `300 - 400` is
negative, so it clamps to 0 and `scrollRight` resets to 300. -/
theorem rtl_position_clamp_witness :
    updateRtlPosition true Direction.horizontal ⟨500, 200, 0, 0, 0⟩ ⟨400, 200, 1, false⟩
      = some (0, ⟨300, 200, 1, false⟩) :=
  (rtl_position_clamp Direction.horizontal ⟨500, 200, 0, 0, 0⟩ ⟨400, 200, 1, false⟩
    (by decide)).1 (by decide)

/-- C7: on a change of the `direction` option, `_resetInactiveDirection`
issues a corrective scroll whose target forces the now-inactive axis to 0
while keeping the active axis at the current offset: `left` is zeroed when
the new direction is vertical and `top` when it is horizontal. -/
theorem reset_inactive_direction_zeroes_axis :
    (∀ offset : StrategyLocation,
        resetInactiveDirection true Direction.vertical offset = some ⟨0, offset.top⟩)
  ∧ (∀ offset : StrategyLocation,
        resetInactiveDirection true Direction.horizontal offset = some ⟨offset.left, 0⟩) :=
  ⟨fun _ => rfl, fun _ => rfl⟩

/-! Helper lemmas for the lock invariant -/

theorem applyLockOp_disabled (s : LockState) (op : LockOp) :
    (applyLockOp s op).disabled = s.disabled := by
  cases op <;> simp only [applyLockOp, lock, unlock, renderDisabledState] <;>
    (try split) <;> simp [lock, unlock]

theorem applyLockOp_locked (s : LockState) (op : LockOp)
    (hd : s.disabled = true) (hl : s.locked = true) :
    (applyLockOp s op).locked = true := by
  cases op <;> simp [applyLockOp, lock, unlock, renderDisabledState, hd, hl]

theorem lockOps_invariant (ops : List LockOp) (s : LockState)
    (hd : s.disabled = true) (hl : s.locked = true) :
    (ops.foldl applyLockOp s).locked = true := by
  induction ops generalizing s with
  | nil => exact hl
  | cons op rest ih =>
    exact ih (applyLockOp s op) (by rw [applyLockOp_disabled]; exact hd)
      (applyLockOp_locked s op hd hl)

/-- C9: while the `disabled` option is true the scrollable stays locked —
`_renderDisabledState` locks it, `_unlock` leaves the state untouched, and
any sequence of lock-related operations keeps `_isLocked` true; unlocking
takes effect only once `disabled` is false. -/
theorem disabled_keeps_locked (s : LockState) (hd : s.disabled = true) :
    isLocked (renderDisabledState s) = true
  ∧ (∀ ops : List LockOp, isLocked (ops.foldl applyLockOp (renderDisabledState s)) = true)
  ∧ unlock s = s
  ∧ (∀ s2 : LockState, s2.disabled = false → isLocked (unlock s2) = false) := by
  have hrend : isLocked (renderDisabledState s) = true := by
    simp [renderDisabledState, lock, isLocked, hd]
  refine ⟨hrend, fun ops => ?_, by simp [unlock, hd], fun s2 h2 => by simp [unlock, isLocked, h2]⟩
  exact lockOps_invariant ops (renderDisabledState s)
    (by simp [renderDisabledState, lock, hd]) hrend

/-- C9 witness: a disabled scrollable stays locked across render, a direct
unlock attempt, and a repeated disabled-state render. -/
theorem disabled_keeps_locked_witness :
    isLocked ([LockOp.unlockOp, LockOp.renderOp, LockOp.unlockOp].foldl applyLockOp
      (renderDisabledState ⟨false, true⟩)) = true :=
  (disabled_keeps_locked ⟨false, true⟩ rfl).2.1 _

/-- C10: after a scroll in RTL horizontal mode with `skipUpdating` unset,
`_updateRtlConfig` recomputes `scrollRight` as
`(scrollWidth - clientWidth) - scrollLeft` exactly when both the stored
client width and the stored device pixel ratio match the current readings;
when either has changed, the old `scrollRight` is preserved and only the
stored client width and pixel ratio are refreshed. -/
theorem rtl_config_update_rule
    (dir : Direction) (c : ContainerDims) (density : Int) (cfg : RtlConfig)
    (hd : dir ≠ Direction.vertical) (hs : cfg.skipUpdating = false) :
    ((cfg.pixelDensity = density ∧ cfg.clientWidth = c.clientWidth) →
       updateRtlConfig true dir c density cfg =
         { scrollRight := (c.scrollWidth - c.clientWidth) - c.scrollLeft
           clientWidth := c.clientWidth
           pixelDensity := density
           skipUpdating := cfg.skipUpdating })
  ∧ ((cfg.pixelDensity ≠ density ∨ cfg.clientWidth ≠ c.clientWidth) →
       updateRtlConfig true dir c density cfg =
         { cfg with clientWidth := c.clientWidth, pixelDensity := density }) := by
  constructor
  · intro h
    simp [updateRtlConfig, isHorizontalAndRtlEnabled, getMaxOffsetLeft, hd, hs, h]
  · intro h
    have hne : ¬ (cfg.pixelDensity = density ∧ cfg.clientWidth = c.clientWidth) := by
      rcases h with h | h <;> intro hc <;> [exact h hc.1; exact h hc.2]
    simp [updateRtlConfig, isHorizontalAndRtlEnabled, hd, hs, hne]

/-- C10 witness: with client width and pixel ratio unchanged,
`scrollRight` becomes `(500 - 200) - 50 = 250`; after a client-width
change it is preserved at 7 while the stored width is refreshed. -/
theorem rtl_config_update_rule_witness :
    updateRtlConfig true Direction.both ⟨500, 200, 50, 0, 0⟩ 1 ⟨7, 200, 1, false⟩
      = ⟨250, 200, 1, false⟩
  ∧ updateRtlConfig true Direction.both ⟨500, 230, 50, 0, 0⟩ 1 ⟨7, 200, 1, false⟩
      = ⟨7, 230, 1, false⟩ :=
  ⟨(rtl_config_update_rule Direction.both ⟨500, 200, 50, 0, 0⟩ 1 ⟨7, 200, 1, false⟩
      (by decide) rfl).1 ⟨rfl, rfl⟩,
   (rtl_config_update_rule Direction.both ⟨500, 230, 50, 0, 0⟩ 1 ⟨7, 200, 1, false⟩
      (by decide) rfl).2 (Or.inr (by decide))⟩

end DevExtreme
